import Mathlib

/-!
Verification development for the thetails RAG pipeline.

This file gives a shallow embedding, in Lean 4, of the retrieval-augmented
generation core of the repository: the deterministic fallback chunker and
chunk post-processing (supabase function `chunk-content`), the embedding
extraction/validation (supabase function `generate-embedding` and the client
`EmbeddingService`), the `similarity_search` SQL function, the client
`EmbeddingService.searchSimilar`, and the chat-query orchestrator
(`supabase/functions/chat-query/index.ts`): retrieval sufficiency, the
gap-filter predicates, the gap classifier and the knowledge-gap records.

Modelling conventions:
- JavaScript strings are modelled as `List Char`; the JS string operations
  used by the source (`trim`, `toLowerCase`, `toUpperCase`, `split(/\s+/)`,
  `includes`, `substring`, regex prefix tests) are defined below with
  JavaScript semantics (in particular `"".split(/\s+/)` is `[""]`, and a
  leading/trailing separator contributes an empty field).
- JS numbers carried by embeddings and similarity scores are modelled as `ℚ`.
  Because `Rat.sub` is `@[irreducible]` in this toolchain, the SQL expression
  `1 - (e.embedding <=> q)` is embedded as the computable `qsub` below, which
  is proved equal to genuine subtraction (`qsub_eq_sub`).
- The pgvector operator `<=>` (cosine distance) is an external computation;
  it is passed to the embedded functions as an explicit parameter `cosDist`,
  exactly where the SQL delegates to the vector index.
- External model calls (Vertex AI) are likewise modelled by their observable
  outcome at the point where the source inspects the response.
-/

/-- JS `String.prototype.trim`: drop whitespace from both ends. -/
def jsTrim (s : List Char) : List Char :=
  ((s.dropWhile Char.isWhitespace).reverse.dropWhile Char.isWhitespace).reverse

/-- JS `String.prototype.toLowerCase` (ASCII fragment used by the source). -/
def jsToLower (s : List Char) : List Char := s.map Char.toLower

/-- JS `String.prototype.toUpperCase` (ASCII fragment used by the source). -/
def jsToUpper (s : List Char) : List Char := s.map Char.toUpper

/-- Worker for `jsSplitWs`: one-pass scan. `inSep` is true while inside a
(maximal) whitespace separator run, whose field was already emitted when the
run began; `cur` is the current field, reversed. -/
def jsSplitWsGo : Bool → List Char → List Char → List (List Char)
  | _, [], cur => [cur.reverse]
  | inSep, c :: rest, cur =>
    if c.isWhitespace then
      if inSep then jsSplitWsGo true rest cur
      else cur.reverse :: jsSplitWsGo true rest []
    else
      jsSplitWsGo false rest (c :: cur)

/-- JS `s.split(/\s+/)`: fields separated by maximal whitespace runs.
A leading or trailing run produces an empty field and `""` splits to `[""]`,
as in JavaScript. -/
def jsSplitWs (s : List Char) : List (List Char) := jsSplitWsGo false s []

/-- `sentence.split(/\s+/).length`, the word counter used by the fallback
chunker and the gap filter. -/
def wordCountJs (s : List Char) : Nat := (jsSplitWs s).length

/-- End-of-sentence punctuation of the boundary regex `/(?<=[.!?])\s+/`. -/
def isSentenceEnd (c : Char) : Bool := c = '.' || c = '!' || c = '?'

/-- Worker for `splitSentences`: one-pass scan. `inSep` is true while inside
the whitespace run of a separator match (the sentence before it was emitted
when the run began); `afterPunct` records whether the previously consumed
character was `.`, `!` or `?` (the regex lookbehind); `cur` is the current
sentence, reversed. -/
def sentSplitGo : Bool → Bool → List Char → List Char → List (List Char)
  | _, _, [], cur => [cur.reverse]
  | inSep, afterPunct, c :: rest, cur =>
    if inSep then
      if c.isWhitespace then sentSplitGo true false rest cur
      else sentSplitGo false (isSentenceEnd c) rest (c :: cur)
    else
      if afterPunct && c.isWhitespace then
        cur.reverse :: sentSplitGo true false rest []
      else
        sentSplitGo false (isSentenceEnd c) rest (c :: cur)

/-- `content.split(/(?<=[.!?])\s+/)`: split after `.`, `!` or `?` followed by
whitespace; the (maximal) whitespace run is consumed, the punctuation stays
with the preceding sentence. `""` splits to `[""]` as in JavaScript. -/
def splitSentences (content : List Char) : List (List Char) :=
  sentSplitGo false false content []

/-- JS `String.prototype.includes` via an explicit scan of suffixes. -/
def jsIncludes (s pat : List Char) : Bool := s.tails.any (fun t => pat.isPrefixOf t)

section Chunker

/-- The `SemanticChunk` interface of `chunk-content`/`gemini.ts`. -/
structure SemanticChunk where
  content : List Char
  summary : List Char
  keywords : List (List Char)
  chunkIndex : Nat
  totalChunks : Nat
deriving DecidableEq, Repr

/-- `` `Chunk ${n} of content` `` -/
def chunkSummary (n : Nat) : List Char :=
  "Chunk ".data ++ (Nat.repr n).data ++ " of content".data

/-- JS `\w` character class (ASCII): letters, digits, underscore. -/
def isWordChar (c : Char) : Bool := c.isAlphanum || c = '_'

/-- The fixed stop-word list of `extractSimpleKeywords`. -/
def stopWords : List (List Char) :=
  ["this".data, "that".data, "with".data, "have".data, "will".data, "been".data,
   "from".data, "they".data, "know".data, "want".data, "been".data, "good".data,
   "much".data, "some".data, "time".data, "very".data, "when".data, "come".data,
   "here".data, "just".data, "like".data, "long".data, "make".data, "many".data,
   "over".data, "such".data, "take".data, "than".data, "them".data, "well".data,
   "were".data]

/-- `[...new Set(words)]`: deduplicate preserving first-seen order. -/
def dedupFirstSeen (l : List (List Char)) : List (List Char) :=
  l.foldl (fun acc w => if w ∈ acc then acc else acc ++ [w]) []

/-- `extractSimpleKeywords` of `chunk-content`: lower-case, replace
non-word/non-space characters by a space, split on whitespace, keep tokens of
length > 3 not in the stop-word list, deduplicate, take the first 5. -/
def extractSimpleKeywords (text : List Char) : List (List Char) :=
  let words := (jsSplitWs ((jsToLower text).map
      (fun c => if !(isWordChar c || c.isWhitespace) then ' ' else c))).filter
    (fun word => word.length > 3 && !(stopWords.any (fun w => w == word)))
  (dedupFirstSeen words).take 5

/-- The sentence-accumulation loop of `fallbackChunking` (chunk-content),
returning the groups of sentences that become the chunks. `cur` is
`currentChunk` reversed, `wc` is `wordCount`. A chunk is closed exactly when
adding the next sentence would exceed `maxWords` and `currentChunk` is
non-empty; the trailing chunk is flushed after the loop. -/
def fallbackGroups (maxWords : Nat) : List (List Char) → List (List Char) → Nat →
    List (List (List Char))
  | [], cur, _ => if cur.isEmpty then [] else [cur.reverse]
  | s :: rest, cur, wc =>
    if wc + wordCountJs s > maxWords && !cur.isEmpty then
      cur.reverse :: fallbackGroups maxWords rest [s] (wordCountJs s)
    else
      fallbackGroups maxWords rest (s :: cur) (wc + wordCountJs s)

/-- `currentChunk.join(' ')`. -/
def joinSpace (g : List (List Char)) : List Char := List.intercalate [' '] g

/-- `chunks.map((chunk, index) => f(index, chunk))`, with the running index
made explicit. -/
def mapIdxFrom (f : Nat → α → β) : Nat → List α → List β
  | _, [] => []
  | i, a :: as => f i a :: mapIdxFrom f (i + 1) as

/-- `fallbackChunking` of `chunk-content/index.ts`: split the content into
sentences, greedily accumulate whole sentences into chunks of at most
`maxWords` words, then assign `chunkIndex` (push order, 1-based) and
`totalChunks` (the final number of chunks, patched in a second pass). -/
def fallbackChunking (content : List Char) (maxWords : Nat) : List SemanticChunk :=
  let sentences := splitSentences content
  let groups := fallbackGroups maxWords sentences [] 0
  mapIdxFrom (fun i g =>
    { content := joinSpace g
      summary := chunkSummary (i + 1)
      keywords := extractSimpleKeywords (joinSpace g)
      chunkIndex := i + 1
      totalChunks := groups.length }) 0 groups

/-- `processedChunks` of `chunk-content`: re-index whatever array the model
returned (`chunkIndex := index + 1`, `totalChunks := chunks.length`). -/
def processedChunks (chunks : List SemanticChunk) : List SemanticChunk :=
  mapIdxFrom (fun index chunk =>
    { chunk with chunkIndex := index + 1, totalChunks := chunks.length }) 0 chunks

/-- Observable outcome of the semantic-segmentation model call, at the point
where `chunk-content` inspects it: either a failure carrying the thrown
error's message (non-2xx response, missing response text, or no parseable
JSON array), or a parsed chunk array. -/
inductive OracleOutcome where
  | failure (msg : List Char)
  | parsed (chunks : List SemanticChunk)
deriving DecidableEq

/-- The `chunk-content` endpoint body. Empty content throws
`'Content is required'` inside the `try` block; every throw lands in the
`catch` block, which tries to re-read the request body with a second
`await req.json()` — but the body stream was already consumed by the first
read, so that call itself throws (`Body already consumed`), the fallback call
is never reached, and the inner `catch` answers with the HTTP 500 response
`{error: error.message}` carrying the *outer* error's message. So every
failure path is an error response, and `fallbackChunking` is unreachable from
the endpoint at runtime. A parsed model response is re-indexed by
`processedChunks` — note that a parsed *empty* array is accepted as-is, and
is not treated as a failure. -/
def chunkContentEndpoint (oracle : OracleOutcome) (content : List Char) :
    Except (List Char) (List SemanticChunk) :=
  if content.isEmpty then .error "Content is required".data
  else
    match oracle with
    | .parsed chunks => .ok (processedChunks chunks)
    | .failure msg => .error msg

end Chunker

section EmbeddingStore

/-- Computable subtraction on `ℚ` (numerator/denominator formula), used to
embed the SQL expression `1 - (e.embedding <=> query_embedding)`; proved equal
to genuine subtraction in `qsub_eq_sub`. -/
def qsub (a b : ℚ) : ℚ := mkRat (a.num * b.den - b.num * a.den) (a.den * b.den)

/-- `qsub` is subtraction on `ℚ`. -/
theorem qsub_eq_sub (a b : ℚ) : qsub a b = a - b := by
  have ha : (a.den : ℚ) ≠ 0 := by exact_mod_cast a.den_nz
  have hb : (b.den : ℚ) ≠ 0 := by exact_mod_cast b.den_nz
  have h : a - b = (a.num : ℚ) / a.den - (b.num : ℚ) / b.den := by
    rw [Rat.num_div_den, Rat.num_div_den]
  rw [qsub, Rat.mkRat_eq_div, h, div_sub_div _ _ ha hb]
  push_cast
  ring_nf

/-- A row of the `embeddings` table (migration `jade_truth`). -/
structure EmbeddingRow where
  id : Nat
  content : List Char
  embedding : List ℚ
  metadata : List Char
  source_type : List Char
  source_id : Nat
  project_id : Nat
  user_id : Nat
deriving DecidableEq, Repr

/-- A row returned by the `similarity_search` SQL function. -/
structure SqlSearchRow where
  id : Nat
  content : List Char
  similarity : ℚ
  metadata : List Char
  source_type : List Char
  source_id : Nat
deriving DecidableEq, Repr

/-- The `WHERE` clause of `similarity_search`: tenant scoping (each filter is
skipped when NULL) and the strict similarity threshold
`1 - (e.embedding <=> q) > match_threshold`. -/
def sqlMatches (cosDist : List ℚ → List ℚ → ℚ) (query_embedding : List ℚ)
    (match_threshold : ℚ) (filter_project_id filter_user_id : Option Nat)
    (e : EmbeddingRow) : Bool :=
  (match filter_project_id with | none => true | some p => e.project_id == p) &&
  (match filter_user_id with | none => true | some u => e.user_id == u) &&
  decide (match_threshold < qsub (mkRat 1 1) (cosDist e.embedding query_embedding))

/-- The `SELECT` projection of `similarity_search`. -/
def sqlProject (cosDist : List ℚ → List ℚ → ℚ) (query_embedding : List ℚ)
    (e : EmbeddingRow) : SqlSearchRow :=
  { id := e.id
    content := e.content
    similarity := qsub (mkRat 1 1) (cosDist e.embedding query_embedding)
    metadata := e.metadata
    source_type := e.source_type
    source_id := e.source_id }

/-- The `similarity_search` SQL function (migration `jade_truth`): filter by
scope and strict threshold, `ORDER BY e.embedding <=> query_embedding`
(ascending distance), `LIMIT match_count`, projecting each row with its
derived similarity `1 - distance`. In SQL, `match_threshold` defaults to 0.4
and `match_count` to 10; call sites below pass them explicitly. `cosDist`
stands for the pgvector cosine-distance operator `<=>`. -/
def similarity_search (db : List EmbeddingRow) (cosDist : List ℚ → List ℚ → ℚ)
    (query_embedding : List ℚ) (match_threshold : ℚ) (match_count : Nat)
    (filter_project_id filter_user_id : Option Nat) : List SqlSearchRow :=
  (((db.filter
      (sqlMatches cosDist query_embedding match_threshold filter_project_id
        filter_user_id)).insertionSort
    (fun e₁ e₂ => cosDist e₁.embedding query_embedding ≤
      cosDist e₂.embedding query_embedding)).take match_count).map
    (sqlProject cosDist query_embedding)

/-- A `SimilarityResult` as mapped by `EmbeddingService.searchSimilar`. -/
structure SimilarityResult where
  id : Nat
  content : List Char
  similarity : ℚ
  metadata : List Char
  sourceType : List Char
  sourceId : Nat
deriving DecidableEq, Repr

/-- The options object of `EmbeddingService.searchSimilar`, with its optional
fields. -/
structure SearchOptions where
  threshold : Option ℚ
  limit : Option Nat
  sourceType : Option (List Char)

/-- `EmbeddingService.searchSimilar` (client): destructure the options with
defaults `threshold = 0.4`, `limit = 10`; call the `similarity_search` RPC
with both tenant filters set; filter by `source_type` client-side if a
`sourceType` option was given; re-shape each row into a `SimilarityResult`. -/
def searchSimilar (db : List EmbeddingRow) (cosDist : List ℚ → List ℚ → ℚ)
    (queryEmbedding : List ℚ) (projectId userId : Nat) (options : SearchOptions) :
    List SimilarityResult :=
  let threshold := options.threshold.getD (mkRat 4 10)
  let limit := options.limit.getD 10
  let data : List SqlSearchRow := similarity_search db cosDist queryEmbedding
    threshold limit (some projectId) (some userId)
  let results : List SqlSearchRow := match options.sourceType with
    | some st => data.filter (fun item => item.source_type == st)
    | none => data
  results.map (fun item =>
    { id := item.id
      content := item.content
      similarity := item.similarity
      metadata := item.metadata
      sourceType := item.source_type
      sourceId := item.source_id })

/-- Observable outcome of embedding extraction from the Vertex AI response
(`generate-embedding`, lines 154-174): after the four-way cascade over
`predictions[0]`, the selected candidate is either absent, a non-array value,
or an array of numbers. The subsequent validation only tests
`!embedding || !Array.isArray(embedding)`. -/
inductive EmbeddingPayload where
  | missing
  | nonArray
  | array (xs : List ℚ)
deriving DecidableEq

/-- The embedding extraction/validation of `generate-embedding/index.ts`
(also duplicated in `chat-query/index.ts`): a non-2xx model response throws;
a missing or non-array candidate throws
`'No valid embedding found in Vertex AI response'`; any array is returned
as-is — its length is never compared against the model dimension (768). -/
def generateEmbeddingServer (respOk : Bool) (payload : EmbeddingPayload) :
    Except (List Char) (List ℚ) :=
  if !respOk then .error "Vertex AI API error".data
  else
    match payload with
    | .array xs => .ok xs
    | .missing => .error "No valid embedding found in Vertex AI response".data
    | .nonArray => .error "No valid embedding found in Vertex AI response".data

/-- `EmbeddingService.generateEmbedding` (client, `embeddings.ts`): a non-2xx
HTTP response throws; a response carrying `data.error` throws; a missing or
non-array `data.embedding` throws `'Invalid embedding response format'`; any
array is returned as-is, with no dimensionality check. -/
def generateEmbeddingClient (respOk : Bool) (dataError : Option (List Char))
    (payload : EmbeddingPayload) : Except (List Char) (List ℚ) :=
  if !respOk then .error "Failed to generate embedding".data
  else
    match dataError with
    | some _ => .error "Failed to generate embedding".data
    | none =>
      match payload with
      | .array xs => .ok xs
      | .missing => .error "Failed to generate embedding".data
      | .nonArray => .error "Failed to generate embedding".data

/-- Whether an `Except` is an error. -/
def isErrorE (e : Except (List Char) (List ℚ)) : Bool :=
  match e with
  | .error _ => true
  | .ok _ => false

end EmbeddingStore

section ChatQuery

/-- `searchSimilarContent` of `chat-query/index.ts`: wraps the
`similarity_search` RPC, passing only `filter_project_id` (no user filter).
Its `threshold` parameter defaults to 0.4 and `limit` to 5; the handler call
site passes `threshold = 0.4` explicitly and leaves `limit = 5`. -/
def searchSimilarContent (db : List EmbeddingRow) (cosDist : List ℚ → List ℚ → ℚ)
    (queryEmbedding : List ℚ) (projectId : Nat) (threshold : ℚ) (limit : Nat) :
    List SqlSearchRow :=
  similarity_search db cosDist queryEmbedding threshold limit (some projectId) none

/-- `hasRelevantContent` (chat-query, line 481): non-empty result set and at
least one result with `similarity > 0.5`. -/
def hasRelevantContent (similarContent : List SqlSearchRow) : Bool :=
  similarContent.length > 0 &&
  similarContent.any (fun item => decide (mkRat 5 10 < item.similarity))

/-- The `commonGreetings` list of chat-query. -/
def commonGreetings : List (List Char) :=
  ["hi".data, "hey".data, "hello".data, "test".data, "hola".data, "yo".data,
   "sup".data, "howdy".data, "greetings".data, "good morning".data,
   "good afternoon".data, "good evening".data, "thanks".data, "thank you".data,
   "help".data, "help me".data, "can you help".data, "please help".data,
   "i need help".data, "what can you do".data, "what do you do".data]

/-- The generic-help-request regex
`/^(can you|could you|would you|will you|please)\s+(help|assist)/i` applied to
a (trimmed) query: case-insensitively, one of the five opener phrases,
followed by at least one whitespace character, followed by `help` or
`assist`. -/
def genericHelpRequest (s : List Char) : Bool :=
  let t := jsToLower s
  ["can you".data, "could you".data, "would you".data, "will you".data,
   "please".data].any (fun p =>
    p.isPrefixOf t &&
    (match t.drop p.length with
     | [] => false
     | c :: _ => c.isWhitespace &&
        (let r := (t.drop p.length).dropWhile Char.isWhitespace
         "help".data.isPrefixOf r || "assist".data.isPrefixOf r)))

/-- `isSubstantialQuery` (chat-query, lines 492-497), in the source's
conjunct order: trimmed length strictly greater than 15, not an exact
greeting-list entry after trimming and lower-casing, strictly more than 3
words, and not a generic can/could/would/will/please + help/assist request. -/
def isSubstantialQuery (query : List Char) : Bool :=
  (jsTrim query).length > 15 &&
  !(commonGreetings.any (fun greeting => jsToLower (jsTrim query) == greeting)) &&
  (jsSplitWs (jsTrim query)).length > 3 &&
  !(genericHelpRequest (jsTrim query))

/-- An apostrophe character, spelled by code point. -/
def apos : Char := Char.ofNat 39

/-- `looksLikeResponse` (chat-query, line 500): the response-echo prefix
regex, expanded into its nine alternative prefixes, tested case-insensitively
against the trimmed query. -/
def looksLikeResponse (query : List Char) : Bool :=
  let t := jsToLower (jsTrim query)
  ["none of this".data,
   "this didn".data ++ [apos] ++ "t help".data,
   "this did not help".data,
   "not helpful".data,
   "can".data ++ [apos] ++ "t help".data,
   "can not help".data,
   "forward the issue".data,
   "contact support".data,
   "talk to someone".data].any (fun p => p.isPrefixOf t)

/-- The cores `an issue | a problem | a question` of the
`isJustIssueStatement` regexes. -/
def issueCores : List (List Char) := ["an issue".data, "a problem".data, "a question".data]

/-- Match one optional group `(\s+kw₁|\s+kw₂|…)?`: when the remainder starts
with whitespace followed (after the run) by one of the alternative keywords,
consume that single alternative; otherwise leave the remainder unchanged.
At most one alternative is consumed, as for a regex group with `?`. (Each
keyword starts with a non-whitespace character, so the greedy `\s+` consumes
exactly the whole run; the alternatives have distinct first letters, so the
regex alternation order does not matter, and skipping a matching group can
never rescue the overall match because the following pieces — `\s+this` and
`\.?$` — cannot begin with the leftover whitespace run.) -/
def consumeOptAlt (r : List Char) (kws : List (List Char)) : List Char :=
  match r with
  | [] => r
  | c :: _ =>
    if c.isWhitespace then
      let r2 := r.dropWhile Char.isWhitespace
      match kws.find? (fun kw => kw.isPrefixOf r2) with
      | some kw => r2.drop kw.length
      | none => r
    else r

/-- The tail `(\s+with|\s+about)?(\s+this)?\.?$` of the issue-statement
regexes: one optional `with`/`about` alternative, then one optional `this`,
then an optional final period at the end of the string. -/
def issueStatementTail (r : List Char) : Bool :=
  let r1 := consumeOptAlt r ["with".data, "about".data]
  let r2 := consumeOptAlt r1 ["this".data]
  r2 == [] || r2 == ['.']

/-- `isJustIssueStatement` (chat-query, lines 504-505): full-match, case
insensitive, of `^i have (an issue|a problem|a question)(\s+with|\s+about)?(\s+this)?\.?$`
or the same with `i'm having` / `i am having`, against the trimmed query. -/
def isJustIssueStatement (query : List Char) : Bool :=
  let t := jsToLower (jsTrim query)
  issueCores.any (fun core =>
    (("i have ".data ++ core).isPrefixOf t &&
      issueStatementTail (t.drop ("i have ".data ++ core).length)) ||
    ((("i".data ++ [apos] ++ "m having ".data) ++ core).isPrefixOf t &&
      issueStatementTail (t.drop (("i".data ++ [apos] ++ "m having ".data) ++ core).length)) ||
    (("i am having ".data ++ core).isPrefixOf t &&
      issueStatementTail (t.drop ("i am having ".data ++ core).length)))

/-- The conjunction guarding knowledge-gap creation in the handler (line 521),
with the retrieval-sufficiency test factored out: the Gap Filter proper. -/
def passesGapFilter (query : List Char) : Bool :=
  isSubstantialQuery query && !(looksLikeResponse query) && !(isJustIssueStatement query)

/-- Observable outcome of the Gemini classification call in
`isQuestionAnIssue`: a non-2xx response, a thrown error, or a 2xx response
whose `candidates[0].content.parts[0].text` is present or missing. -/
inductive ClassifierOutcome where
  | httpError
  | thrown
  | ok (text : Option (List Char))
deriving DecidableEq

/-- `isQuestionAnIssue` (chat-query, lines 352-424): on a non-2xx response or
a thrown error, return `false` (inquiry); otherwise take the response text
(defaulting to the empty string), trim it, upper-case it, and test whether it
contains `"ISSUE"`. -/
def isQuestionAnIssue (outcome : ClassifierOutcome) : Bool :=
  match outcome with
  | .httpError => false
  | .thrown => false
  | .ok text => jsIncludes (jsToUpper (jsTrim (text.getD []))) "ISSUE".data

/-- `knowledgeGapType` as computed by the handler (line 523). -/
def classifyGapType (outcome : ClassifierOutcome) : List Char :=
  if isQuestionAnIssue outcome then "issue".data else "inquiry".data

/-- The title built for a knowledge-gap record (lines 533 and 556):
`Knowledge Gap: ` followed by the query, truncated to its first 24 characters
plus `...` when the query is longer than 27 characters. -/
def knowledgeGapTitle (query : List Char) : List Char :=
  "Knowledge Gap: ".data ++
    (if query.length > 27 then query.take 24 ++ "...".data else query)

/-- A knowledge-gap record as inserted into `issues` or `inquiries`.
`content` is the extra column set only for inquiries; `severity` and `status`
are set only for issues. -/
structure GapRecord where
  title : List Char
  description : List Char
  content : Option (List Char)
  severity : Option (List Char)
  status : Option (List Char)
  tags : List (List Char)
  user_id : Nat
  project_id : Nat
deriving DecidableEq, Repr

/-- The row inserted into `issues` for a knowledge gap (lines 529-541). -/
def mkIssueRecord (query : List Char) (userId projectId : Nat) : GapRecord :=
  { title := knowledgeGapTitle query
    description := query
    content := none
    severity := some "medium".data
    status := some "open".data
    tags := ["ai-gap".data, "needs-review".data, "auto-detected".data]
    user_id := userId
    project_id := projectId }

/-- The row inserted into `inquiries` for a knowledge gap (lines 552-563). -/
def mkInquiryRecord (query : List Char) (userId projectId : Nat) : GapRecord :=
  { title := knowledgeGapTitle query
    description := query
    content := some query
    severity := none
    status := none
    tags := ["ai-gap".data, "needs-review".data, "auto-detected".data]
    user_id := userId
    project_id := projectId }

/-- The chat endpoint request body (§6 of the external interface). The
handler destructures only `query`, `chatHistory` and `projectSlug`
(line 433); the optional `threshold` field is never read. -/
structure ChatRequestBody where
  query : List Char
  chatHistory : List (List Char × List Char)
  projectSlug : List Char
  threshold : Option ℚ

/-- The observable outcome of one chat-query request that this embedding
tracks: the retrieved context, the sufficiency decision, the gap decision
with the record it would insert, and the generated response text. -/
structure ChatOutcome where
  results : List SqlSearchRow
  hasRelevant : Bool
  gapAttempted : Bool
  gapType : Option (List Char)
  gapRecord : Option GapRecord
  response : List Char
deriving DecidableEq

/-- The retrieval performed by the handler (line 472): similarity search with
threshold 0.4 (passed explicitly) and limit 5 (the default). -/
def chatRetrieve (db : List EmbeddingRow) (cosDist : List ℚ → List ℚ → ℚ)
    (embedOf : List Char → List ℚ) (projectId : Nat) (body : ChatRequestBody) :
    List SqlSearchRow :=
  searchSimilarContent db cosDist (embedOf body.query) projectId (mkRat 4 10) 5

/-- The chat-query handler pipeline (lines 433-576), over oracles for the
embedding model (`embedOf`), the generation model (`respond`, a function of
the query, the retrieved context and the chat history) and the classifier
outcome: retrieve with threshold 0.4 / limit 5, decide sufficiency, apply the
gap filter, and on an insufficient substantial query classify and build the
gap record. -/
def chatHandle (db : List EmbeddingRow) (cosDist : List ℚ → List ℚ → ℚ)
    (embedOf : List Char → List ℚ)
    (respond : List Char → List SqlSearchRow → List (List Char × List Char) → List Char)
    (classifier : ClassifierOutcome) (projectId userId : Nat)
    (body : ChatRequestBody) : ChatOutcome :=
  let similarContent := chatRetrieve db cosDist embedOf projectId body
  let hrc := hasRelevantContent similarContent
  let eligible := !hrc && passesGapFilter body.query
  let gapType := classifyGapType classifier
  { results := similarContent
    hasRelevant := hrc
    gapAttempted := eligible
    gapType := if eligible then some gapType else none
    gapRecord :=
      if eligible then
        some (if gapType == "issue".data then mkIssueRecord body.query userId projectId
              else mkInquiryRecord body.query userId projectId)
      else none
    response := respond body.query similarContent body.chatHistory }

end ChatQuery

section SearchLemmas

/-- The `SimilarityResult` view of a database row, as produced by
`searchSimilar` (the client re-shaping of the SQL projection). -/
def clientView (cosDist : List ℚ → List ℚ → ℚ) (queryEmbedding : List ℚ)
    (e : EmbeddingRow) : SimilarityResult :=
  { id := e.id
    content := e.content
    similarity := qsub (mkRat 1 1) (cosDist e.embedding queryEmbedding)
    metadata := e.metadata
    sourceType := e.source_type
    sourceId := e.source_id }

/-- Soundness: every row returned by `similarity_search` is the projection of
a database row passing the scope-and-threshold filter. -/
theorem mem_similarity_search {db : List EmbeddingRow}
    {cosDist : List ℚ → List ℚ → ℚ} {q : List ℚ} {t : ℚ} {k : Nat}
    {fp fu : Option Nat} {r : SqlSearchRow}
    (hr : r ∈ similarity_search db cosDist q t k fp fu) :
    ∃ e ∈ db, sqlMatches cosDist q t fp fu e = true ∧ r = sqlProject cosDist q e := by
  rcases List.mem_map.mp hr with ⟨e, he, hproj⟩
  have he2 := List.take_subset _ _ he
  have he3 := (List.mem_insertionSort _).mp he2
  rcases List.mem_filter.mp he3 with ⟨hedb, hematch⟩
  exact ⟨e, hedb, hematch, hproj.symm⟩

/-- Completeness: when at most `k` rows pass the filter, every database row
passing it appears (projected) in the output of `similarity_search`. -/
theorem similarity_search_complete {db : List EmbeddingRow}
    {cosDist : List ℚ → List ℚ → ℚ} {q : List ℚ} {t : ℚ} {k : Nat}
    {fp fu : Option Nat} {e : EmbeddingRow}
    (hlen : (db.filter (sqlMatches cosDist q t fp fu)).length ≤ k)
    (he : e ∈ db) (hm : sqlMatches cosDist q t fp fu e = true) :
    sqlProject cosDist q e ∈ similarity_search db cosDist q t k fp fu := by
  unfold similarity_search
  apply List.mem_map_of_mem
  rw [List.take_of_length_le (by rw [List.length_insertionSort]; exact hlen)]
  exact (List.mem_insertionSort _).mpr (List.mem_filter.mpr ⟨he, hm⟩)

/-- `similarity_search` returns at most `match_count` rows. -/
theorem similarity_search_length (db : List EmbeddingRow)
    (cosDist : List ℚ → List ℚ → ℚ) (q : List ℚ) (t : ℚ) (k : Nat)
    (fp fu : Option Nat) :
    (similarity_search db cosDist q t k fp fu).length ≤ k := by
  unfold similarity_search
  rw [List.length_map]
  exact List.length_take_le k _

/-- `similarity_search` output is sorted by descending similarity (the SQL
orders by ascending cosine distance, and `x ↦ 1 - x` is antitone). -/
theorem similarity_search_sorted (db : List EmbeddingRow)
    (cosDist : List ℚ → List ℚ → ℚ) (q : List ℚ) (t : ℚ) (k : Nat)
    (fp fu : Option Nat) :
    List.Sorted (fun r₁ r₂ : SqlSearchRow => r₂.similarity ≤ r₁.similarity)
      (similarity_search db cosDist q t k fp fu) := by
  unfold similarity_search
  have hins : List.Sorted
      (fun e₁ e₂ : EmbeddingRow => cosDist e₁.embedding q ≤ cosDist e₂.embedding q)
      ((db.filter (sqlMatches cosDist q t fp fu)).insertionSort
        (fun e₁ e₂ => cosDist e₁.embedding q ≤ cosDist e₂.embedding q)) := by
    haveI : IsTotal EmbeddingRow
        (fun e₁ e₂ => cosDist e₁.embedding q ≤ cosDist e₂.embedding q) :=
      ⟨fun a b => le_total _ _⟩
    haveI : IsTrans EmbeddingRow
        (fun e₁ e₂ => cosDist e₁.embedding q ≤ cosDist e₂.embedding q) :=
      ⟨fun a b c hab hbc => le_trans hab hbc⟩
    exact List.sorted_insertionSort _ _
  have htake := hins.sublist (List.take_sublist k _)
  refine List.pairwise_map.mpr (htake.imp ?_)
  intro e₁ e₂ h
  show (sqlProject cosDist q e₂).similarity ≤ (sqlProject cosDist q e₁).similarity
  simp only [sqlProject, qsub_eq_sub]
  exact sub_le_sub_left h _

/-- The threshold conjunct of `sqlMatches`: a returned row's similarity is
strictly above the threshold. -/
theorem similarity_of_mem {db : List EmbeddingRow}
    {cosDist : List ℚ → List ℚ → ℚ} {q : List ℚ} {t : ℚ} {k : Nat}
    {fp fu : Option Nat} {r : SqlSearchRow}
    (hr : r ∈ similarity_search db cosDist q t k fp fu) : t < r.similarity := by
  rcases mem_similarity_search hr with ⟨e, _, hm, hre⟩
  rcases Bool.and_eq_true_iff.mp hm with ⟨_, h3⟩
  rw [hre]
  exact of_decide_eq_true h3

end SearchLemmas

section ChunkerLemmas

/-- Total word count of a sentence group, as tracked by the loop counter. -/
def groupWords (g : List (List Char)) : Nat := (g.map wordCountJs).sum

/-- The sentence splitter never returns an empty list (the final
`cur.reverse` is always emitted). -/
theorem sentSplitGo_ne_nil :
    ∀ (inSep afterPunct : Bool) (s cur : List Char),
      sentSplitGo inSep afterPunct s cur ≠ []
  | _, _, [], cur => by simp [sentSplitGo]
  | inSep, afterPunct, c :: rest, cur => by
    unfold sentSplitGo
    split
    · split
      · exact sentSplitGo_ne_nil true false rest cur
      · exact sentSplitGo_ne_nil false (isSentenceEnd c) rest (c :: cur)
    · split
      · simp
      · exact sentSplitGo_ne_nil false (isSentenceEnd c) rest (c :: cur)

/-- `splitSentences` never returns the empty list. -/
theorem splitSentences_ne_nil (content : List Char) : splitSentences content ≠ [] :=
  sentSplitGo_ne_nil false false content []

/-- Flattening the chunk groups gives back `cur.reverse` followed by the
remaining sentences: no sentence is lost, duplicated or divided. -/
theorem fallbackGroups_join (maxWords : Nat) :
    ∀ (ss cur : List (List Char)) (wc : Nat),
      (fallbackGroups maxWords ss cur wc).flatten = cur.reverse ++ ss
  | [], cur, wc => by
    unfold fallbackGroups
    cases cur <;> simp
  | s :: rest, cur, wc => by
    unfold fallbackGroups
    split
    · simp [fallbackGroups_join maxWords rest [s] (wordCountJs s)]
    · simp [fallbackGroups_join maxWords rest (s :: cur) (wc + wordCountJs s)]

/-- Every chunk group is non-empty: a chunk always contains at least one
whole sentence. -/
theorem fallbackGroups_ne_nil (maxWords : Nat) :
    ∀ (ss cur : List (List Char)) (wc : Nat),
      ∀ g ∈ fallbackGroups maxWords ss cur wc, g ≠ []
  | [], cur, wc => by
    unfold fallbackGroups
    cases cur with
    | nil => simp
    | cons a l => simp
  | s :: rest, cur, wc => by
    unfold fallbackGroups
    split
    · intro g hg
      rcases List.mem_cons.mp hg with h | h
      · subst h
        have hcur : !cur.isEmpty := by
          rcases Bool.and_eq_true_iff.mp (by assumption) with ⟨_, h2⟩
          exact h2
        cases cur with
        | nil => simp at hcur
        | cons a l => simp
      · exact fallbackGroups_ne_nil maxWords rest [s] (wordCountJs s) g h
    · exact fallbackGroups_ne_nil maxWords rest (s :: cur) (wc + wordCountJs s)

/-- A chunk group holding two or more sentences never exceeds the word
budget: the loop only extends a non-empty chunk when the sum stays within
`maxWords`. -/
theorem fallbackGroups_wordBound (maxWords : Nat) :
    ∀ (ss cur : List (List Char)) (wc : Nat),
      wc = groupWords cur → (2 ≤ cur.length → wc ≤ maxWords) →
      ∀ g ∈ fallbackGroups maxWords ss cur wc,
        2 ≤ g.length → groupWords g ≤ maxWords
  | [], cur, wc => by
    intro hwc hbound g hg hlen
    unfold fallbackGroups at hg
    cases hcur : cur.isEmpty with
    | true => simp [hcur] at hg
    | false =>
      simp only [hcur, Bool.false_eq_true, if_false] at hg
      rcases List.mem_singleton.mp hg with h
      subst h
      have : groupWords cur.reverse = groupWords cur := by
        simp [groupWords, List.map_reverse, List.sum_reverse]
      rw [this]
      rw [List.length_reverse] at hlen
      exact hwc ▸ hbound hlen
  | s :: rest, cur, wc => by
    intro hwc hbound g hg hlen
    unfold fallbackGroups at hg
    split at hg
    · rcases List.mem_cons.mp hg with h | h
      · subst h
        have : groupWords cur.reverse = groupWords cur := by
          simp [groupWords, List.map_reverse, List.sum_reverse]
        rw [this]
        rw [List.length_reverse] at hlen
        exact hwc ▸ hbound hlen
      · refine fallbackGroups_wordBound maxWords rest [s] (wordCountJs s) ?_ ?_ g h hlen
        · simp [groupWords]
        · intro h2
          simp at h2
    · rename_i hguard
      refine fallbackGroups_wordBound maxWords rest (s :: cur) (wc + wordCountJs s)
        ?_ ?_ g hg hlen
      · simp only [groupWords, List.map_cons, List.sum_cons] at hwc ⊢
        omega
      · intro hlen2
        by_cases hc : cur = []
        · subst hc
          simp at hlen2
        · have hc2 : (!cur.isEmpty) = true := by
            cases cur with
            | nil => exact absurd rfl hc
            | cons a l => simp
          have hle : ¬ (wc + wordCountJs s > maxWords) := by
            intro hgt
            exact hguard (by simp [hc2, hgt])
          omega

/-- The groups are never empty when there is at least one sentence or a
pending chunk. -/
theorem fallbackGroups_nonEmpty (maxWords : Nat) :
    ∀ (ss cur : List (List Char)) (wc : Nat), ss ≠ [] ∨ cur ≠ [] →
      fallbackGroups maxWords ss cur wc ≠ []
  | [], cur, wc => by
    intro h
    rcases h with h | h
    · exact absurd rfl h
    · unfold fallbackGroups
      cases cur with
      | nil => exact absurd rfl h
      | cons a l => simp
  | s :: rest, cur, wc => by
    intro _
    unfold fallbackGroups
    split
    · simp
    · exact fallbackGroups_nonEmpty maxWords rest (s :: cur) (wc + wordCountJs s)
        (Or.inr (by simp))

/-- `mapIdxFrom` preserves length. -/
theorem mapIdxFrom_length {α β : Type} (f : Nat → α → β) :
    ∀ (i : Nat) (l : List α), (mapIdxFrom f i l).length = l.length
  | _, [] => rfl
  | i, a :: as => by
    simp [mapIdxFrom, mapIdxFrom_length f (i + 1) as]

/-- Elements of `mapIdxFrom f i l` all satisfy `P` provided every `f j a`
with `j` in the index window and `a` in the list does. -/
theorem mapIdxFrom_mem_prop {α β : Type} {f : Nat → α → β} (P : β → Prop) :
    ∀ {i : Nat} {l : List α},
      (∀ j a, i ≤ j → j < i + l.length → a ∈ l → P (f j a)) →
      ∀ b ∈ mapIdxFrom f i l, P b
  | _, [], _, b, hb => by simp [mapIdxFrom] at hb
  | i, a :: as, h, b, hb => by
    rcases List.mem_cons.mp hb with hba | hbas
    · subst hba
      exact h i a (le_refl i) (by simp) (by simp)
    · refine mapIdxFrom_mem_prop P ?_ b hbas
      intro j x hij hjlt hx
      exact h j x (by omega) (by simp only [List.length_cons]; omega) (by simp [hx])

/-- Mapping a projection that ignores the index through `mapIdxFrom`. -/
theorem mapIdxFrom_map {α β γ : Type} (f : Nat → α → β) (g : β → γ) (g' : α → γ)
    (hf : ∀ n a, g (f n a) = g' a) :
    ∀ (i : Nat) (l : List α), (mapIdxFrom f i l).map g = l.map g'
  | _, [] => rfl
  | i, a :: as => by
    simp [mapIdxFrom, hf, mapIdxFrom_map f g g' hf (i + 1) as]

end ChunkerLemmas

/-- C1: for every chat query, retrieval is judged sufficient iff the
similarity-search result set is non-empty and some result has similarity
strictly above 0.5; any result set whose similarities are all at most 0.45 is
judged insufficient; and a row whose similarity is exactly 0.45 still clears
the 0.4 search threshold and appears in the (uncapped) search results. -/
theorem c1_retrieval_sufficiency :
    ∀ (rs : List SqlSearchRow) (db : List EmbeddingRow)
      (cosDist : List ℚ → List ℚ → ℚ) (q : List ℚ) (pid : Nat) (e : EmbeddingRow),
      (hasRelevantContent rs = true ↔
        rs ≠ [] ∧ ∃ r ∈ rs, mkRat 5 10 < r.similarity) ∧
      ((∀ r ∈ rs, r.similarity ≤ mkRat 45 100) → hasRelevantContent rs = false) ∧
      (e ∈ db → e.project_id = pid →
        qsub (mkRat 1 1) (cosDist e.embedding q) = mkRat 45 100 →
        (db.filter (sqlMatches cosDist q (mkRat 4 10) (some pid) none)).length ≤ 5 →
        sqlProject cosDist q e ∈ searchSimilarContent db cosDist q pid (mkRat 4 10) 5) := by
  intro rs db cosDist q pid e
  refine ⟨?_, ?_, ?_⟩
  · simp [hasRelevantContent, List.any_eq_true, List.length_pos]
  · intro hall
    rw [Bool.eq_false_iff]
    intro htrue
    rcases Bool.and_eq_true_iff.mp htrue with ⟨_, h2⟩
    rcases List.any_eq_true.mp h2 with ⟨r, hr, hsim⟩
    have h1 := of_decide_eq_true hsim
    have h3 : mkRat 5 10 < mkRat 45 100 := lt_of_lt_of_le h1 (hall r hr)
    exact absurd h3 (by decide)
  · intro he hpid hsim hlen
    unfold searchSimilarContent
    apply similarity_search_complete hlen he
    unfold sqlMatches
    rw [hsim]
    subst hpid
    simp only [beq_self_eq_true, Bool.true_and]
    decide

/-- Witness for C1 at a concrete result set whose best similarity is 0.45:
the sufficiency test rejects it. -/
theorem c1_retrieval_sufficiency_witness :
    (∀ r ∈ [(⟨1, "x".data, mkRat 45 100, [], "context".data, 2⟩ : SqlSearchRow)],
      r.similarity ≤ mkRat 45 100) ∧
    hasRelevantContent
      [(⟨1, "x".data, mkRat 45 100, [], "context".data, 2⟩ : SqlSearchRow)] = false :=
  ⟨by decide,
    (c1_retrieval_sufficiency
      [(⟨1, "x".data, mkRat 45 100, [], "context".data, 2⟩ : SqlSearchRow)]
      [] (fun _ _ => mkRat 0 1) [] 0
      ⟨0, [], [], [], [], 0, 0, 0⟩).2.1 (by decide)⟩

/-- C3 (counterexample): a 25-character query is longer than 24 characters
but is *not* truncated (the code truncates only above 27), and its title is
40 characters long, exceeding the claimed 30-character bound. -/
theorem c3_counterexample :
    24 < (List.replicate 25 'a').length ∧
    (mkIssueRecord (List.replicate 25 'a') 0 0).title ≠
      "Knowledge Gap: ".data ++ ((List.replicate 25 'a').take 24 ++ "...".data) ∧
    (mkIssueRecord (List.replicate 25 'a') 0 0).title.length = 40 ∧
    30 < (mkIssueRecord (List.replicate 25 'a') 0 0).title.length := by decide

/-- C3 (amended): the gap-record title is `Knowledge Gap: ` followed by the
query truncated to 24 characters plus an ellipsis when the query exceeds 27
characters (the untruncated query otherwise); the title never exceeds 42
characters; and the description of both record kinds holds the full query. -/
theorem c3_gap_record_title (query : List Char) (userId projectId : Nat) :
    (27 < query.length →
      (mkIssueRecord query userId projectId).title =
        "Knowledge Gap: ".data ++ (query.take 24 ++ "...".data)) ∧
    (query.length ≤ 27 →
      (mkIssueRecord query userId projectId).title = "Knowledge Gap: ".data ++ query) ∧
    (mkIssueRecord query userId projectId).title.length ≤ 42 ∧
    (mkIssueRecord query userId projectId).description = query ∧
    (mkInquiryRecord query userId projectId).description = query ∧
    (mkInquiryRecord query userId projectId).title =
      (mkIssueRecord query userId projectId).title := by
  have hp : ("Knowledge Gap: ".data).length = 15 := by decide
  have hd : ("...".data).length = 3 := by decide
  refine ⟨?_, ?_, ?_, rfl, rfl, rfl⟩
  · intro h
    simp [mkIssueRecord, knowledgeGapTitle, h]
  · intro h
    have h2 : ¬ (query.length > 27) := by omega
    simp [mkIssueRecord, knowledgeGapTitle, h2]
  · show (knowledgeGapTitle query).length ≤ 42
    unfold knowledgeGapTitle
    by_cases h : query.length > 27
    · simp only [h, if_true, List.length_append, List.length_take, hp, hd]
      omega
    · simp only [h, if_false, List.length_append, hp]
      omega

/-- Witness for C3 at a 30-character query: the truncated title shape. -/
theorem c3_gap_record_title_witness :
    27 < (List.replicate 30 'b').length ∧
    (mkIssueRecord (List.replicate 30 'b') 0 0).title =
      "Knowledge Gap: ".data ++ ((List.replicate 30 'b').take 24 ++ "...".data) :=
  ⟨by decide, (c3_gap_record_title (List.replicate 30 'b') 0 0).1 (by decide)⟩

/-- C4 (counterexample): `"why is sky blue"` trims to exactly 15 characters,
has 4 words, is no greeting, no generic help request and no response echo, so
under the claim it passes all five gates; the code nevertheless rejects it
(`passesGapFilter = false`), because the length gate requires strictly more
than 15 characters. -/
theorem c4_counterexample :
    (jsTrim "why is sky blue".data).length = 15 ∧
    3 < (jsSplitWs (jsTrim "why is sky blue".data)).length ∧
    jsToLower (jsTrim "why is sky blue".data) ∉ commonGreetings ∧
    genericHelpRequest (jsTrim "why is sky blue".data) = false ∧
    looksLikeResponse "why is sky blue".data = false ∧
    isJustIssueStatement "why is sky blue".data = false ∧
    passesGapFilter "why is sky blue".data = false := by decide

/-- C4 (amended): the length gate rejects a query exactly when its trimmed
length is 15 or less (so a query of trimmed length exactly 15 is rejected,
and length 16 passes gate 1), and a query is eligible for gap logging iff it
passes all five gates: length, word count > 3, not a greeting-list entry,
not a generic help request, and not a response echo (where the response-echo
gate comprises both the echo-prefix patterns and the bare
issue/problem/question statements). -/
theorem c4_gap_filter_gates (query : List Char) :
    passesGapFilter query = true ↔
      (15 < (jsTrim query).length ∧
       3 < (jsSplitWs (jsTrim query)).length ∧
       jsToLower (jsTrim query) ∉ commonGreetings ∧
       genericHelpRequest (jsTrim query) = false ∧
       looksLikeResponse query = false ∧
       isJustIssueStatement query = false) := by
  have hmem : (commonGreetings.any
        fun greeting => jsToLower (jsTrim query) == greeting) = false ↔
      jsToLower (jsTrim query) ∉ commonGreetings := by
    rw [← Bool.not_eq_true, List.any_eq_true]
    simp [beq_iff_eq]
  have hnot : ∀ b : Bool, (!b) = true ↔ b = false := by
    intro b
    cases b <;> simp
  constructor
  · intro h
    rcases Bool.and_eq_true_iff.mp h with ⟨hAB, hC⟩
    rcases Bool.and_eq_true_iff.mp hAB with ⟨hA, hB⟩
    rcases Bool.and_eq_true_iff.mp hA with ⟨hLGW, hH⟩
    rcases Bool.and_eq_true_iff.mp hLGW with ⟨hLG, hW⟩
    rcases Bool.and_eq_true_iff.mp hLG with ⟨hL, hG⟩
    exact ⟨of_decide_eq_true hL, of_decide_eq_true hW,
      hmem.mp ((hnot _).mp hG), (hnot _).mp hH,
      (hnot _).mp hB, (hnot _).mp hC⟩
  · rintro ⟨h1, h2, h3, h4, h5, h6⟩
    exact Bool.and_eq_true_iff.mpr ⟨Bool.and_eq_true_iff.mpr
      ⟨Bool.and_eq_true_iff.mpr ⟨Bool.and_eq_true_iff.mpr
        ⟨Bool.and_eq_true_iff.mpr ⟨decide_eq_true h1, (hnot _).mpr (hmem.mpr h3)⟩,
          decide_eq_true h2⟩, (hnot _).mpr h4⟩,
      (hnot _).mpr h5⟩, (hnot _).mpr h6⟩

/-- C6 (counterexample): an array of length 3 (wrong dimensionality, the
model dimension is 768) is returned as a successful embedding by both the
server and the client path, with no error. -/
theorem c6_counterexample :
    generateEmbeddingServer true (.array [mkRat 1 1, mkRat 2 1, mkRat 3 1]) =
      .ok [mkRat 1 1, mkRat 2 1, mkRat 3 1] ∧
    generateEmbeddingClient true none (.array [mkRat 1 1, mkRat 2 1, mkRat 3 1]) =
      .ok [mkRat 1 1, mkRat 2 1, mkRat 3 1] ∧
    [mkRat 1 1, mkRat 2 1, mkRat 3 1].length = 3 ∧ (3 : Nat) ≠ 768 :=
  ⟨rfl, rfl, by decide⟩

/-- C6 (amended): `embed` fails whenever the underlying model call errors or
no array-valued embedding is found in the response, and it succeeds exactly
on an array candidate — which it returns unchanged, whatever its length: the
dimensionality (768) is never validated. -/
theorem c6_embedding_validation :
    ∀ (respOk : Bool) (dataError : Option (List Char)) (payload : EmbeddingPayload),
      (respOk = false → isErrorE (generateEmbeddingServer respOk payload) = true) ∧
      ((payload = .missing ∨ payload = .nonArray) →
        isErrorE (generateEmbeddingServer respOk payload) = true) ∧
      (∀ xs, generateEmbeddingServer respOk payload = .ok xs ↔
        (respOk = true ∧ payload = .array xs)) ∧
      (∀ xs, generateEmbeddingClient respOk dataError payload = .ok xs ↔
        (respOk = true ∧ dataError = none ∧ payload = .array xs)) := by
  intro respOk dataError payload
  cases respOk <;> rcases payload with _ | _ | xs <;>
    rcases dataError with _ | err <;>
    simp [generateEmbeddingServer, generateEmbeddingClient, isErrorE]

/-- Witness for C6: a failed model call yields an embedding error. -/
theorem c6_embedding_validation_witness :
    (false = false) ∧ isErrorE (generateEmbeddingServer false .missing) = true :=
  ⟨rfl, (c6_embedding_validation false none .missing).1 rfl⟩

/-- C9: the classifier assigns every query exactly one of `issue`/`inquiry`,
and each failure mode — non-2xx model response, thrown error, missing
response text — classifies as `inquiry`. -/
theorem c9_classifier_failsafe :
    ∀ outcome : ClassifierOutcome,
      (classifyGapType outcome = "issue".data ∨
        classifyGapType outcome = "inquiry".data) ∧
      classifyGapType .httpError = "inquiry".data ∧
      classifyGapType .thrown = "inquiry".data ∧
      classifyGapType (.ok none) = "inquiry".data := by
  intro outcome
  refine ⟨?_, by decide, by decide, by decide⟩
  unfold classifyGapType
  by_cases h : isQuestionAnIssue outcome
  · left
    simp [h]
  · right
    simp [h]

/-- C10: two chat requests that differ only in the optional `threshold` body
field produce identical outcomes — the handler always searches with
threshold 0.4 and limit 5, so the retrieved context, the sufficiency
decision, the gap decision and the response are unchanged. -/
theorem c10_threshold_noninterference :
    ∀ (db : List EmbeddingRow) (cosDist : List ℚ → List ℚ → ℚ)
      (embedOf : List Char → List ℚ)
      (respond : List Char → List SqlSearchRow → List (List Char × List Char) → List Char)
      (classifier : ClassifierOutcome) (projectId userId : Nat)
      (b₁ b₂ : ChatRequestBody),
      b₁.query = b₂.query → b₁.chatHistory = b₂.chatHistory →
      b₁.projectSlug = b₂.projectSlug →
      chatHandle db cosDist embedOf respond classifier projectId userId b₁ =
        chatHandle db cosDist embedOf respond classifier projectId userId b₂ ∧
      chatRetrieve db cosDist embedOf projectId b₁ =
        similarity_search db cosDist (embedOf b₁.query) (mkRat 4 10) 5
          (some projectId) none := by
  intro db cosDist embedOf respond classifier projectId userId b₁ b₂ hq hh _
  constructor
  · simp [chatHandle, chatRetrieve, searchSimilarContent, hq, hh]
  · rfl

/-- Witness for C10 at two concrete bodies differing only in `threshold`. -/
theorem c10_threshold_noninterference_witness :
    chatHandle [] (fun _ _ => mkRat 0 1) (fun _ => []) (fun _ _ _ => [])
      .thrown 0 0 ⟨"q".data, [], "p".data, none⟩ =
    chatHandle [] (fun _ _ => mkRat 0 1) (fun _ => []) (fun _ _ _ => [])
      .thrown 0 0 ⟨"q".data, [], "p".data, some (mkRat 9 10)⟩ :=
  (c10_threshold_noninterference [] (fun _ _ => mkRat 0 1) (fun _ => [])
    (fun _ _ _ => []) .thrown 0 0
    ⟨"q".data, [], "p".data, none⟩
    ⟨"q".data, [], "p".data, some (mkRat 9 10)⟩ rfl rfl rfl).1

/-- `fallbackChunking` with its let-bindings expanded. -/
theorem fallbackChunking_eq (content : List Char) (maxWords : Nat) :
    fallbackChunking content maxWords =
      mapIdxFrom (fun i g =>
        { content := joinSpace g
          summary := chunkSummary (i + 1)
          keywords := extractSimpleKeywords (joinSpace g)
          chunkIndex := i + 1
          totalChunks := (fallbackGroups maxWords (splitSentences content) [] 0).length })
        0 (fallbackGroups maxWords (splitSentences content) [] 0) := rfl

/-- The fallback chunker never returns zero chunks (even empty content splits
into the single empty sentence, which forms one chunk). -/
theorem fallbackChunking_ne_nil (content : List Char) (maxWords : Nat) :
    fallbackChunking content maxWords ≠ [] := by
  have hg := fallbackGroups_nonEmpty maxWords (splitSentences content) [] 0
    (Or.inl (splitSentences_ne_nil content))
  intro h
  apply hg
  have hlen := congrArg List.length h
  rw [fallbackChunking_eq, mapIdxFrom_length] at hlen
  exact List.length_eq_zero.mp hlen

/-- Index invariant of the fallback chunker. -/
theorem fallbackChunking_indexInvariant (content : List Char) (maxWords : Nat) :
    ∀ c ∈ fallbackChunking content maxWords,
      1 ≤ c.chunkIndex ∧ c.chunkIndex ≤ c.totalChunks ∧
      c.totalChunks = (fallbackChunking content maxWords).length := by
  rw [fallbackChunking_eq, mapIdxFrom_length]
  apply mapIdxFrom_mem_prop
  intro j g _ hj _
  refine ⟨?_, ?_, rfl⟩
  · show 1 ≤ j + 1
    omega
  · show j + 1 ≤ (fallbackGroups maxWords (splitSentences content) [] 0).length
    omega

/-- Index invariant of the primary-path re-indexing. -/
theorem processedChunks_indexInvariant (chunks : List SemanticChunk) :
    ∀ c ∈ processedChunks chunks,
      1 ≤ c.chunkIndex ∧ c.chunkIndex ≤ c.totalChunks ∧
      c.totalChunks = (processedChunks chunks).length := by
  unfold processedChunks
  rw [mapIdxFrom_length]
  apply mapIdxFrom_mem_prop
  intro j c _ hj _
  refine ⟨?_, ?_, rfl⟩
  · show 1 ≤ j + 1
    omega
  · show j + 1 ≤ chunks.length
    omega

/-- C2: the deterministic fallback chunker splits the content into sentences
at end-of-sentence punctuation followed by whitespace (`splitSentences`),
accumulates whole sentences greedily (a chunk of two or more sentences stays
within `maxWords`), never splits a sentence across two chunks, and the chunk
contents are exactly the sentence groups joined by spaces, whose
concatenation restores the original sentence sequence. -/
theorem c2_fallback_chunker (content : List Char) (maxWords : Nat)
    (h : content ≠ []) :
    ((fallbackChunking content maxWords).map (fun c => c.content) =
      (fallbackGroups maxWords (splitSentences content) [] 0).map joinSpace) ∧
    (fallbackGroups maxWords (splitSentences content) [] 0).flatten =
      splitSentences content ∧
    (∀ g ∈ fallbackGroups maxWords (splitSentences content) [] 0, g ≠ []) ∧
    (∀ g ∈ fallbackGroups maxWords (splitSentences content) [] 0,
      2 ≤ g.length → groupWords g ≤ maxWords) := by
  refine ⟨?_, ?_, ?_, ?_⟩
  · rw [fallbackChunking_eq]
    exact mapIdxFrom_map _ (fun c : SemanticChunk => c.content) joinSpace
      (fun n g => rfl) 0 _
  · simpa using fallbackGroups_join maxWords (splitSentences content) [] 0
  · exact fallbackGroups_ne_nil maxWords (splitSentences content) [] 0
  · refine fallbackGroups_wordBound maxWords (splitSentences content) [] 0 rfl ?_
    intro h2
    simp at h2

/-- Witness for C2 on the spec's end-to-end scenario content with
`maxWordsPerChunk = 3`. -/
theorem c2_fallback_chunker_witness :
    "Cats are mammals. Dogs are mammals too.".data ≠ [] ∧
    (fallbackGroups 3
      (splitSentences "Cats are mammals. Dogs are mammals too.".data) [] 0).flatten =
      splitSentences "Cats are mammals. Dogs are mammals too.".data :=
  ⟨by decide,
    (c2_fallback_chunker "Cats are mammals. Dogs are mammals too.".data 3
      (by decide)).2.1⟩

/-- C7 (counterexample): for non-empty input, a parsed empty model array is
answered as zero chunks, refuting "chunk() returns at least one chunk for
every non-empty content"; and for empty input the endpoint answers the
`'Content is required'` error, not the empty chunk sequence. -/
theorem c7_counterexample :
    "abc".data ≠ [] ∧
    chunkContentEndpoint (OracleOutcome.parsed []) "abc".data = .ok [] ∧
    chunkContentEndpoint
        (OracleOutcome.failure "No response text from Vertex AI".data) [] =
      .error "Content is required".data := by
  refine ⟨by decide, rfl, rfl⟩

/-- C7 (amended): every chunk in a successful response has `chunkIndex`
between 1 and `totalChunks`, with `totalChunks` equal to the number of
returned chunks; a successful response arises only from a parsed model array
for non-empty content, re-indexed as-is, so it is empty exactly when that
array was empty; empty content is answered with the `'Content is required'`
error; and every model failure on non-empty content is answered with that
failure's error — the catch block's second body read throws, so the
deterministic fallback is unreachable and the endpoint never returns chunks
on a failure path. -/
theorem c7_chunk_invariants (oracle : OracleOutcome) (content : List Char) :
    (∀ cs, chunkContentEndpoint oracle content = .ok cs →
      (∀ c ∈ cs, 1 ≤ c.chunkIndex ∧ c.chunkIndex ≤ c.totalChunks ∧
        c.totalChunks = cs.length) ∧
      (cs = [] ↔ oracle = OracleOutcome.parsed [])) ∧
    (content = [] →
      chunkContentEndpoint oracle content = .error "Content is required".data) ∧
    (∀ msg, oracle = OracleOutcome.failure msg → content ≠ [] →
      chunkContentEndpoint oracle content = .error msg) := by
  refine ⟨?_, ?_, ?_⟩
  · intro cs hok
    unfold chunkContentEndpoint at hok
    cases content with
    | nil => simp at hok
    | cons a l =>
      cases oracle with
      | failure msg => simp at hok
      | parsed chunks =>
        simp only [List.isEmpty_cons, Bool.false_eq_true, if_false,
          Except.ok.injEq] at hok
        subst hok
        refine ⟨processedChunks_indexInvariant chunks, ?_⟩
        constructor
        · intro hnil
          have hlen := congrArg List.length hnil
          unfold processedChunks at hlen
          rw [mapIdxFrom_length] at hlen
          rw [List.length_eq_zero.mp hlen]
        · intro hp
          injection hp with hcs
          rw [hcs]
          rfl
  · intro hcontent
    subst hcontent
    rfl
  · intro msg hor hne
    subst hor
    cases content with
    | nil => exact absurd rfl hne
    | cons a l => rfl

/-- Witness for C7 at a concrete parsed one-chunk response: the re-indexed
chunk satisfies the index invariant. -/
theorem c7_chunk_invariants_witness :
    chunkContentEndpoint
        (OracleOutcome.parsed [⟨"abc".data, "s".data, [], 0, 0⟩]) "abc".data =
      .ok (processedChunks [⟨"abc".data, "s".data, [], 0, 0⟩]) ∧
    ∀ c ∈ processedChunks [⟨"abc".data, "s".data, [], 0, 0⟩],
      1 ≤ c.chunkIndex ∧ c.chunkIndex ≤ c.totalChunks ∧
      c.totalChunks = (processedChunks [⟨"abc".data, "s".data, [], 0, 0⟩]).length :=
  ⟨rfl,
    ((c7_chunk_invariants (OracleOutcome.parsed [⟨"abc".data, "s".data, [], 0, 0⟩])
      "abc".data).1 (processedChunks [⟨"abc".data, "s".data, [], 0, 0⟩]) rfl).1⟩

/-- C5 (counterexample): with threshold 0.0, an in-scope stored row whose
similarity is exactly 0 (orthogonal embedding, cosine distance 1) is *not*
returned, although the claim makes every in-scope row eligible whatever its
similarity value: the SQL filter requires `similarity > threshold` strictly. -/
theorem c5_counterexample :
    (⟨0, "r".data, [mkRat 1 1], [], "context".data, 5, 7, 7⟩ : EmbeddingRow).project_id = 7 ∧
    (⟨0, "r".data, [mkRat 1 1], [], "context".data, 5, 7, 7⟩ : EmbeddingRow).user_id = 7 ∧
    qsub (mkRat 1 1) (mkRat 1 1) = mkRat 0 1 ∧
    ([(⟨0, "r".data, [mkRat 1 1], [], "context".data, 5, 7, 7⟩ : EmbeddingRow)].length ≤ 10) ∧
    similarity_search [⟨0, "r".data, [mkRat 1 1], [], "context".data, 5, 7, 7⟩]
      (fun _ _ => mkRat 1 1) [] (mkRat 0 1) 10 (some 7) (some 7) = [] := by decide

/-- C5 (amended): assuming the cosine distance is non-negative (pgvector's
`<=>` ranges over [0,2]), a search with threshold 1.0 returns the empty set —
so vacuously every returned result is an exact-embedding match — and a search
with threshold 0.0 returns up to `limit` results ordered by descending
similarity, where an in-scope stored row is eligible iff its similarity is
strictly greater than 0 (rows of similarity ≤ 0 are excluded). -/
theorem c5_threshold_extremes :
    ∀ (db : List EmbeddingRow) (cosDist : List ℚ → List ℚ → ℚ) (q : List ℚ)
      (k : Nat) (fp fu : Option Nat),
      (∀ e ∈ db, mkRat 0 1 ≤ cosDist e.embedding q) →
      (similarity_search db cosDist q (mkRat 1 1) k fp fu = [] ∧
       (∀ r ∈ similarity_search db cosDist q (mkRat 1 1) k fp fu,
         r.similarity = mkRat 1 1) ∧
       (∀ r ∈ similarity_search db cosDist q (mkRat 0 1) k fp fu,
         mkRat 0 1 < r.similarity) ∧
       List.Sorted (fun r₁ r₂ : SqlSearchRow => r₂.similarity ≤ r₁.similarity)
         (similarity_search db cosDist q (mkRat 0 1) k fp fu) ∧
       (similarity_search db cosDist q (mkRat 0 1) k fp fu).length ≤ k ∧
       ((db.filter (sqlMatches cosDist q (mkRat 0 1) fp fu)).length ≤ k →
         ∀ e ∈ db, sqlMatches cosDist q (mkRat 0 1) fp fu e = true →
         sqlProject cosDist q e ∈
           similarity_search db cosDist q (mkRat 0 1) k fp fu)) := by
  intro db cosDist q k fp fu hd
  have hone : (mkRat 1 1 : ℚ) = 1 := by decide
  have hempty : similarity_search db cosDist q (mkRat 1 1) k fp fu = [] := by
    have hfil : db.filter (sqlMatches cosDist q (mkRat 1 1) fp fu) = [] := by
      rw [List.filter_eq_nil_iff]
      intro e he hm
      rcases Bool.and_eq_true_iff.mp hm with ⟨_, hC⟩
      have hlt := of_decide_eq_true hC
      rw [qsub_eq_sub, hone] at hlt
      have h0 := hd e he
      have hzero : (mkRat 0 1 : ℚ) = 0 := by decide
      rw [hzero] at h0
      linarith
    unfold similarity_search
    rw [hfil]
    simp
  refine ⟨hempty, ?_, ?_, ?_, ?_, ?_⟩
  · intro r hr
    rw [hempty] at hr
    cases hr
  · intro r hr
    exact similarity_of_mem hr
  · exact similarity_search_sorted db cosDist q (mkRat 0 1) k fp fu
  · exact similarity_search_length db cosDist q (mkRat 0 1) k fp fu
  · intro hlen e he hm
    exact similarity_search_complete hlen he hm

/-- Witness for C5 at a one-row database with distance 0.5 everywhere:
the row (similarity 0.5 > 0) is returned by the threshold-0 search. -/
theorem c5_threshold_extremes_witness :
    (∀ e ∈ [(⟨0, "r".data, [mkRat 1 1], [], "context".data, 5, 7, 7⟩ : EmbeddingRow)],
      mkRat 0 1 ≤ (fun _ _ => mkRat 1 2) e.embedding ([] : List ℚ)) ∧
    sqlProject (fun _ _ => mkRat 1 2) []
      (⟨0, "r".data, [mkRat 1 1], [], "context".data, 5, 7, 7⟩ : EmbeddingRow) ∈
    similarity_search [⟨0, "r".data, [mkRat 1 1], [], "context".data, 5, 7, 7⟩]
      (fun _ _ => mkRat 1 2) [] (mkRat 0 1) 10 (some 7) (some 7) :=
  ⟨by decide,
    ((c5_threshold_extremes [⟨0, "r".data, [mkRat 1 1], [], "context".data, 5, 7, 7⟩]
      (fun _ _ => mkRat 1 2) [] 10 (some 7) (some 7)
      (by decide)).2.2.2.2.2 (by decide) _ (by decide) (by decide))⟩

/-- C8: `searchSimilar` returns at most `limit` results (default 10), ordered
by descending similarity; every result is the view of a stored row scoped to
`(projectId, userId)` with similarity strictly above the threshold and, when
a `sourceType` option is given, that source type; when no `sourceType` filter
is given and at most `limit` rows match, exactly the matching rows are
returned; and the threshold defaults to 0.4 when not supplied. -/
theorem c8_search_contract :
    ∀ (db : List EmbeddingRow) (cosDist : List ℚ → List ℚ → ℚ) (q : List ℚ)
      (projectId userId : Nat) (options : SearchOptions),
      (searchSimilar db cosDist q projectId userId options).length ≤
        options.limit.getD 10 ∧
      List.Sorted (fun r₁ r₂ : SimilarityResult => r₂.similarity ≤ r₁.similarity)
        (searchSimilar db cosDist q projectId userId options) ∧
      (∀ r ∈ searchSimilar db cosDist q projectId userId options,
        ∃ e ∈ db, e.project_id = projectId ∧ e.user_id = userId ∧
          options.threshold.getD (mkRat 4 10) <
            qsub (mkRat 1 1) (cosDist e.embedding q) ∧
          (∀ stx, options.sourceType = some stx → e.source_type = stx) ∧
          r = clientView cosDist q e) ∧
      (options.sourceType = none →
        (db.filter (sqlMatches cosDist q (options.threshold.getD (mkRat 4 10))
          (some projectId) (some userId))).length ≤ options.limit.getD 10 →
        ∀ e ∈ db, e.project_id = projectId → e.user_id = userId →
          options.threshold.getD (mkRat 4 10) <
            qsub (mkRat 1 1) (cosDist e.embedding q) →
          clientView cosDist q e ∈ searchSimilar db cosDist q projectId userId options) ∧
      (options.threshold = none →
        searchSimilar db cosDist q projectId userId options =
        searchSimilar db cosDist q projectId userId
          ⟨some (mkRat 4 10), options.limit, options.sourceType⟩) := by
  intro db cosDist q projectId userId options
  obtain ⟨th, lim, st⟩ := options
  cases st with
  | none =>
    refine ⟨?_, ?_, ?_, ?_, ?_⟩
    · show (List.map _ (similarity_search db cosDist q (th.getD (mkRat 4 10))
        (lim.getD 10) (some projectId) (some userId))).length ≤ lim.getD 10
      rw [List.length_map]
      exact similarity_search_length db cosDist q _ _ _ _
    · refine List.pairwise_map.mpr
        ((similarity_search_sorted db cosDist q (th.getD (mkRat 4 10))
          (lim.getD 10) (some projectId) (some userId)).imp ?_)
      intro a b hab
      exact hab
    · intro r hr
      rcases List.mem_map.mp hr with ⟨item, hitem, hview⟩
      rcases mem_similarity_search hitem with ⟨e, hedb, hm, hitem_eq⟩
      rcases Bool.and_eq_true_iff.mp hm with ⟨hAB, hC⟩
      rcases Bool.and_eq_true_iff.mp hAB with ⟨hA, hB⟩
      refine ⟨e, hedb, beq_iff_eq.mp hA, beq_iff_eq.mp hB,
        of_decide_eq_true hC, ?_, ?_⟩
      · intro stx hstx
        exact Option.noConfusion hstx
      · rw [← hview, hitem_eq]
        rfl
    · intro _ hlen e hedb hpid huid hth
      have hm : sqlMatches cosDist q (th.getD (mkRat 4 10)) (some projectId)
          (some userId) e = true := by
        subst hpid
        subst huid
        refine Bool.and_eq_true_iff.mpr ⟨Bool.and_eq_true_iff.mpr ⟨?_, ?_⟩,
          decide_eq_true hth⟩
        · show (e.project_id == e.project_id) = true
          exact beq_self_eq_true _
        · show (e.user_id == e.user_id) = true
          exact beq_self_eq_true _
      exact List.mem_map_of_mem _ (similarity_search_complete hlen hedb hm)
    · intro hth
      subst hth
      rfl
  | some s =>
    refine ⟨?_, ?_, ?_, ?_, ?_⟩
    · show (List.map _ ((similarity_search db cosDist q (th.getD (mkRat 4 10))
        (lim.getD 10) (some projectId) (some userId)).filter
          (fun item => item.source_type == s))).length ≤ lim.getD 10
      rw [List.length_map]
      exact le_trans (List.length_filter_le _ _)
        (similarity_search_length db cosDist q _ _ _ _)
    · refine List.pairwise_map.mpr
        (((similarity_search_sorted db cosDist q (th.getD (mkRat 4 10))
          (lim.getD 10) (some projectId) (some userId)).filter _).imp ?_)
      intro a b hab
      exact hab
    · intro r hr
      rcases List.mem_map.mp hr with ⟨item, hitem, hview⟩
      rcases List.mem_filter.mp hitem with ⟨hdata, hst⟩
      rcases mem_similarity_search hdata with ⟨e, hedb, hm, hitem_eq⟩
      rcases Bool.and_eq_true_iff.mp hm with ⟨hAB, hC⟩
      rcases Bool.and_eq_true_iff.mp hAB with ⟨hA, hB⟩
      refine ⟨e, hedb, beq_iff_eq.mp hA, beq_iff_eq.mp hB,
        of_decide_eq_true hC, ?_, ?_⟩
      · intro stx hstx
        injection hstx with hs
        subst hs
        rw [hitem_eq] at hst
        exact beq_iff_eq.mp hst
      · rw [← hview, hitem_eq]
        rfl
    · intro habs
      exact Option.noConfusion habs
    · intro hth
      subst hth
      rfl

/-- Witness for C8: for a one-row in-scope database with cosine distance 0.5
(similarity 0.5 above the default threshold 0.4), the row's view is among the
search results with no options set. -/
theorem c8_search_contract_witness :
    ((⟨none, none, none⟩ : SearchOptions).sourceType = none) ∧
    clientView (fun _ _ => mkRat 1 2) []
      (⟨0, "r".data, [mkRat 1 1], [], "context".data, 5, 7, 7⟩ : EmbeddingRow) ∈
    searchSimilar [⟨0, "r".data, [mkRat 1 1], [], "context".data, 5, 7, 7⟩]
      (fun _ _ => mkRat 1 2) [] 7 7 ⟨none, none, none⟩ :=
  ⟨rfl,
    (c8_search_contract [⟨0, "r".data, [mkRat 1 1], [], "context".data, 5, 7, 7⟩]
      (fun _ _ => mkRat 1 2) [] 7 7 ⟨none, none, none⟩).2.2.2.1 rfl
      (by decide) _ (by decide) (by decide) (by decide) (by decide)⟩
